import Mathlib

/-!
A verification development for the `medicine_bot` repository: a personal
medical-record application with a Telegram intake bot.  The development
shallowly embeds the core TypeScript modules —

* `src/lib/metrics.ts` (metrics catalog and measurement extraction),
* `src/lib/types.ts` (document taxonomy and its normalizer),
* `src/lib/duplicates.ts` (duplicate detection heuristics),
* the Telegram webhook route (batch collection, intake, pending-decision
  resolution)

— as executable Lean functions and proves the specified properties about
them.  JavaScript strings are modelled as Lean `String`s; JS numbers as
exact fractions (`Frac` below — the decimal literals, small-integer ratios
and threshold comparisons on the embedded code paths behave identically in
double precision, so an exact model is faithful); JS `Date` values as
either an abstract calendar-day key (duplicate detection only compares
`toDateString()` results) or as a millisecond epoch instant (`Int`) in the
webhook model.
-/

namespace MedBot

/-! ## Exact number model

An unnormalized fraction `num / den`.  Every operation below is plain
constructor-level `Int`/`Nat` arithmetic (no gcd normalization), so the
kernel can evaluate it; value-level equality and order are the usual
cross-multiplication relations.  All denominators constructed by the
embedding are positive, and every division the embedded code performs has
a positive divisor (word-set unions and common-key counts are checked
non-empty first, powers of ten are positive), so `Frac.div` is only ever
applied to such arguments. -/

structure Frac where
  num : Int
  den : Nat
  deriving Repr, DecidableEq

def Frac.ofNat (n : Nat) : Frac := ⟨n, 1⟩

def Frac.add (a b : Frac) : Frac :=
  ⟨a.num * b.den + b.num * a.den, a.den * b.den⟩

def Frac.mul (a b : Frac) : Frac :=
  ⟨a.num * b.num, a.den * b.den⟩

/-- Division, for a divisor that is a positive fraction. -/
def Frac.div (a b : Frac) : Frac :=
  ⟨a.num * b.den, a.den * b.num.toNat⟩

/-- Value-level equality: `a.num / a.den = b.num / b.den`. -/
def Frac.eqv (a b : Frac) : Prop :=
  a.num * (b.den : Int) = b.num * (a.den : Int)

/-- Value-level strict order (for positive denominators). -/
def Frac.lt (a b : Frac) : Prop :=
  a.num * (b.den : Int) < b.num * (a.den : Int)

/-- Value-level order (for positive denominators). -/
def Frac.le (a b : Frac) : Prop :=
  a.num * (b.den : Int) ≤ b.num * (a.den : Int)

instance (a b : Frac) : Decidable (Frac.eqv a b) := by
  unfold Frac.eqv; infer_instance

instance (a b : Frac) : Decidable (Frac.lt a b) := by
  unfold Frac.lt; infer_instance

instance (a b : Frac) : Decidable (Frac.le a b) := by
  unfold Frac.le; infer_instance

/-- JS `Math.round` (round half toward positive infinity):
`⌊x + 1/2⌋`, used only for percentage displays in reason strings. -/
def Frac.jsRound (a : Frac) : Int :=
  Int.fdiv (2 * a.num + a.den) (2 * a.den)

/-! ## JavaScript string primitives

`toLowerCase`, `trim`, `includes`, `split(/\s+/)`, `parseFloat` for the
character repertoire that the repository manipulates (ASCII and Cyrillic).
`String.prototype.toLowerCase` maps A–Z to a–z, А–Я to а–я and Ё to ё;
other characters that occur in this codebase are fixed points. -/

def jsToLowerChar (c : Char) : Char :=
  if 'A' ≤ c ∧ c ≤ 'Z' then Char.ofNat (c.toNat + 32)
  else if 'А' ≤ c ∧ c ≤ 'Я' then Char.ofNat (c.toNat + 32)
  else if c = 'Ё' then 'ё'
  else c

def jsToLower (s : String) : String :=
  String.mk (s.data.map jsToLowerChar)

/-- JS whitespace for `trim` and `\s`, restricted to the ASCII whitespace
that can occur in this repository's data. -/
def isWs (c : Char) : Bool :=
  c = ' ' || c = '\t' || c = '\n' || c = '\r'

def trimChars (l : List Char) : List Char :=
  ((l.dropWhile isWs).reverse.dropWhile isWs).reverse

/-- JS `s.trim()`. -/
def jsTrim (s : String) : String :=
  String.mk (trimChars s.data)

/-- JS `s.toLowerCase().trim()`, the composite the repository always uses. -/
def lowerTrim (s : String) : String :=
  jsTrim (jsToLower s)

/-- JS `haystack.includes(needle)` (substring containment). -/
def subAux (needle : List Char) : List Char → Bool
  | [] => needle.isEmpty
  | c :: t => needle.isPrefixOf (c :: t) || subAux needle t

def jsIncludes (haystack needle : String) : Bool :=
  subAux needle.data haystack.data

/-- `split(/\s+/)` composed with a non-empty-word filter: the repository
only ever consumes the split through `.filter(w => w.length > 2)`, under
which dropping empty tokens is exact. -/
def splitWsCore : List Char → List Char → List String
  | acc, [] => if acc.isEmpty then [] else [String.mk acc.reverse]
  | acc, c :: t =>
    if isWs c then
      if acc.isEmpty then splitWsCore [] t
      else String.mk acc.reverse :: splitWsCore [] t
    else splitWsCore (c :: acc) t

def splitWords (s : String) : List String :=
  splitWsCore [] s.data

def natOfDigits (ds : List Char) : Nat :=
  ds.foldl (fun a c => 10 * a + (c.toNat - 48)) 0

/-- JS `parseFloat` restricted to optional sign, integer digits, an
optional dot and fraction digits; parsing stops at the first character
outside this shape and yields `none` exactly when JS yields `NaN`
(no digit consumed).  Exponents and `Infinity` are not modelled: no
embedded call site can receive them (the inputs are pre-filtered to
digits, dots and commas, or are short free-text vitals). -/
def parseDecimalCore (cs : List Char) : Option Frac :=
  let intDigits := cs.takeWhile Char.isDigit
  let rest := cs.dropWhile Char.isDigit
  let fracDigits :=
    match rest with
    | '.' :: r => r.takeWhile Char.isDigit
    | _ => []
  if intDigits.isEmpty && fracDigits.isEmpty then none
  else
    some ⟨natOfDigits intDigits * 10 ^ fracDigits.length +
            natOfDigits fracDigits,
          10 ^ fracDigits.length⟩

def jsParseFloat (s : String) : Option Frac :=
  let cs := s.data.dropWhile isWs
  match cs with
  | '-' :: r => (parseDecimalCore r).map (fun q => ⟨-q.num, q.den⟩)
  | '+' :: r => parseDecimalCore r
  | r => parseDecimalCore r

/-- JS `str.replace(',', '.')`: only the first comma is replaced. -/
def replaceFirstComma : List Char → List Char
  | [] => []
  | c :: t => if c = ',' then '.' :: t else c :: replaceFirstComma t

/-! ## `src/lib/metrics.ts` -/

structure MetricConfig where
  name : String
  aliases : List String
  unit : String
  normalMin : Frac
  normalMax : Frac
  critical : Option Frac
  color : String
  description : String
  deriving Repr, DecidableEq

/-- `METRICS_CONFIG`, as the ordered key/value entries of the JS object. -/
def METRICS_CONFIG : List (String × MetricConfig) :=
  [("ПСА общий",
    { name := "ПСА общий"
      aliases := ["ПСА", "PSA", "PSA total", "ПСА общ",
        "Простатический специфический антиген"]
      unit := "нг/мл"
      normalMin := ⟨0, 1⟩
      normalMax := ⟨4, 1⟩
      critical := some ⟨10, 1⟩
      color := "#ef4444"
      description := "Простатический специфический антиген (онкомаркер)" }),
   ("ПСА свободный",
    { name := "ПСА свободный"
      aliases := ["ПСА своб", "PSA free", "fPSA", "Свободный ПСА"]
      unit := "нг/мл"
      normalMin := ⟨0, 1⟩
      normalMax := ⟨93, 100⟩
      critical := none
      color := "#f97316"
      description := "Свободная фракция ПСА" }),
   ("Гемоглобин",
    { name := "Гемоглобин"
      aliases := ["Hb", "HGB", "Hemoglobin", "Гемоглоб"]
      unit := "г/л"
      normalMin := ⟨130, 1⟩
      normalMax := ⟨160, 1⟩
      critical := none
      color := "#3b82f6"
      description := "Уровень гемоглобина в крови" })]

/-- `getMetricConfig`: exact key hit first, then a scan of the entries
matching the lower-cased key or any lower-cased alias. -/
def getMetricConfig (name : String) : Option MetricConfig :=
  match METRICS_CONFIG.find? (fun e => e.1 == name) with
  | some e => some e.2
  | none =>
    let nameLower := lowerTrim name
    (METRICS_CONFIG.find? (fun e =>
        jsToLower e.1 == nameLower ||
        e.2.aliases.any (fun a => jsToLower a == nameLower))).map (·.2)

def getCanonicalMetricName (name : String) : Option String :=
  (getMetricConfig name).map (·.name)

/-- `parseValueWithUnit`: the regex `^([\d.,]+)\s*(.*)$` followed by
first-comma replacement and `parseFloat`.  The `(.*)` group of the regex
cannot cross a line terminator, so a residue containing one after the
whitespace run makes the whole match fail. -/
def parseValueWithUnit (str : String) : Option (Frac × String) :=
  if str = "" then none
  else
    let isNumChar := fun c => Char.isDigit c || c = '.' || c = ','
    let numChars := str.data.takeWhile isNumChar
    let rest := str.data.dropWhile isNumChar
    let tail := rest.dropWhile isWs
    if numChars.isEmpty then none
    else if tail.any (fun c => c = '\n' || c = '\r') then none
    else
      match parseDecimalCore (replaceFirstComma numChars) with
      | none => none
      | some value => some (value, String.mk (trimChars tail))

structure Measurement where
  name : String
  value : Frac
  unit : String
  deriving Repr, DecidableEq

/-- `extractMeasurements`: keys resolved against the catalog (unknown keys
skipped), values parsed as number-plus-unit (unparseable values skipped),
unit defaulting to the catalog unit. -/
def extractMeasurements (keyValues : Option (List (String × String))) :
    List Measurement :=
  match keyValues with
  | none => []
  | some kvs =>
    kvs.foldr (fun kv acc =>
      match getCanonicalMetricName kv.1 with
      | none => acc
      | some canonicalName =>
        match (METRICS_CONFIG.find? (fun e => e.1 == canonicalName)).map (·.2) with
        | none => acc
        | some config =>
          match parseValueWithUnit kv.2 with
          | none => acc
          | some parsed =>
            { name := canonicalName
              value := parsed.1
              unit := if parsed.2 = "" then config.unit else parsed.2 } :: acc) []

/-! ## `src/lib/types.ts` — document taxonomy -/

structure CategoryEntry where
  value : String
  label : String
  icon : String
  deriving Repr, DecidableEq

def DOCUMENT_CATEGORIES : List CategoryEntry :=
  [⟨"заключения", "Заключения врачей", "📋"⟩,
   ⟨"анализы", "Анализы", "📊"⟩,
   ⟨"исследования", "Исследования", "🔬"⟩,
   ⟨"другое", "Другое", "📄"⟩]

/-- `CATEGORY_SUBTYPES`: category value ↦ list of (subtype value, label). -/
def CATEGORY_SUBTYPES : List (String × List (String × String)) :=
  [("заключения",
    [("консультация", "Консультация врача"),
     ("выписка", "Выписка / эпикриз"),
     ("направление", "Направление")]),
   ("анализы",
    [("кровь", "Анализ крови (ОАК, биохимия)"),
     ("биохимия", "Биохимия крови"),
     ("онкомаркеры", "Онкомаркеры (ПСА и др.)"),
     ("моча", "Анализ мочи"),
     ("кал", "Анализ кала"),
     ("гистология", "Гистология / биопсия")]),
   ("исследования",
    [("узи", "УЗИ"),
     ("кт", "КТ"),
     ("мрт", "МРТ"),
     ("пэт-кт", "ПЭТ-КТ"),
     ("рентген", "Рентген"),
     ("экг", "ЭКГ"),
     ("эндоскопия", "Эндоскопия"),
     ("колоноскопия", "Колоноскопия")]),
   ("другое",
    [("другое", "Другое")])]

structure SubtypeEntry where
  value : String
  label : String
  category : String
  deriving Repr, DecidableEq

/-- `ALL_SUBTYPES`: the flatMap of `CATEGORY_SUBTYPES` with the category
attached to each subtype. -/
def ALL_SUBTYPES : List SubtypeEntry :=
  CATEGORY_SUBTYPES.flatMap (fun p => p.2.map (fun s => ⟨s.1, s.2, p.1⟩))

def getCategoryBySubtype (subtype : String) : String :=
  match CATEGORY_SUBTYPES.find? (fun p => p.2.any (fun s => s.1 == subtype)) with
  | some p => p.1
  | none => "другое"

/-- The category half of `normalizeDocumentType` (its first if-chain,
applied to the already lower-cased and trimmed category string). -/
def normCategoryRaw (cat : String) : String :=
  if DOCUMENT_CATEGORIES.any (fun c => c.value == cat) then cat
  else if jsIncludes cat "заключен" || jsIncludes cat "консультац" ||
      jsIncludes cat "выпис" then "заключения"
  else if jsIncludes cat "анализ" || jsIncludes cat "кровь" ||
      jsIncludes cat "моч" then "анализы"
  else if jsIncludes cat "исследован" || jsIncludes cat "узи" ||
      jsIncludes cat "кт" || jsIncludes cat "мрт" then "исследования"
  else "другое"

/-- The keyword fallback of `normalizeDocumentType`'s subtype half:
each branch of the source's if-chain sets both subtype and category, so it
is rendered as an optional (subtype, category) pair; `none` means the
source chain fell through leaving subtype `"другое"` and the category
from the first half. -/
def subtypeKeyword (sub : String) : Option (String × String) :=
  if jsIncludes sub "консультац" || jsIncludes sub "осмотр" ||
      jsIncludes sub "приём" || jsIncludes sub "прием" then
    some ("консультация", "заключения")
  else if jsIncludes sub "выпис" || jsIncludes sub "эпикриз" then
    some ("выписка", "заключения")
  else if jsIncludes sub "пса" || jsIncludes sub "онкомаркер" then
    some ("онкомаркеры", "анализы")
  else if jsIncludes sub "биохим" then
    some ("биохимия", "анализы")
  else if jsIncludes sub "кровь" || jsIncludes sub "оак" ||
      jsIncludes sub "гемоглобин" then
    some ("кровь", "анализы")
  else if jsIncludes sub "моч" then
    some ("моча", "анализы")
  else if jsIncludes sub "гистолог" || jsIncludes sub "биопси" then
    some ("гистология", "анализы")
  else if jsIncludes sub "узи" || jsIncludes sub "ультразвук" then
    some ("узи", "исследования")
  else if jsIncludes sub "пэт" || jsIncludes sub "пет-кт" ||
      jsIncludes sub "pet" then
    some ("пэт-кт", "исследования")
  else if jsIncludes sub "кт" || jsIncludes sub "компьютерн" then
    some ("кт", "исследования")
  else if jsIncludes sub "мрт" || jsIncludes sub "магнитн" then
    some ("мрт", "исследования")
  else if jsIncludes sub "рентген" then
    some ("рентген", "исследования")
  else if jsIncludes sub "экг" then
    some ("экг", "исследования")
  else if jsIncludes sub "эндоскоп" then
    some ("эндоскопия", "исследования")
  else if jsIncludes sub "колоноскоп" then
    some ("колоноскопия", "исследования")
  else none

/-- `normalizeDocumentType(rawCategory, rawSubtype)` from
`src/lib/types.ts`: a total function — unrecognized input falls through to
`("другое", "другое")`, never an error. -/
def normalizeDocumentType (rawCategory rawSubtype : String) :
    String × String :=
  let cat := lowerTrim rawCategory
  let sub := lowerTrim rawSubtype
  let category0 := normCategoryRaw cat
  match ALL_SUBTYPES.find? (fun s => s.value == sub) with
  | some found => (found.category, found.value)
  | none =>
    match subtypeKeyword sub with
    | some p => (p.2, p.1)
    | none => (category0, "другое")

/-! ## `src/lib/duplicates.ts` -/

/-- A JS `Date` instant, abstracted to its calendar day: `checkDuplicate`
consumes dates only through `toDateString()` equality, so the model keeps
just a calendar-day index (two instants have equal `dayKey` iff
`toDateString()` agrees). -/
structure JsDate where
  dayKey : Int
  deriving Repr, DecidableEq

structure DocumentData where
  id : String
  date : JsDate
  title : String
  doctor : Option String
  conclusion : Option String
  keyValues : Option (List (String × String))
  deriving Repr, DecidableEq

/-- `AnalysisData` of `duplicates.ts`.  Its `date` field is an ISO string
in the source, immediately parsed by `checkDuplicate` with `new Date`;
the model carries the parsed instant. -/
structure AnalysisData where
  date : JsDate
  title : Option String
  doctor : Option String
  conclusion : Option String
  keyValues : Option (List (String × String))
  deriving Repr, DecidableEq

/-- `calculateSimilarity`: word-set (Jaccard) similarity over lower-cased
words longer than two characters. -/
def calculateSimilarity (str1 str2 : String) : Frac :=
  if str1 = "" || str2 = "" then ⟨0, 1⟩
  else
    let s1 := lowerTrim str1
    let s2 := lowerTrim str2
    if s1 = s2 then ⟨1, 1⟩
    else if s1.length < 3 || s2.length < 3 then ⟨0, 1⟩
    else
      let words1 := (splitWords s1).filter (fun w => w.length > 2)
      let words2 := (splitWords s2).filter (fun w => w.length > 2)
      if words1.isEmpty || words2.isEmpty then ⟨0, 1⟩
      else
        let commonWords := words1.filter (fun w => words2.contains w)
        let union := ((words1 ++ words2).dedup).length
        ⟨commonWords.length, union⟩

/-- JS object property lookup `kv[key]` on the association entries. -/
def jsLookup (kvs : List (String × String)) (k : String) : Option String :=
  (kvs.find? (fun e => e.1 == k)).map (·.2)

/-- `compareKeyValues`: over the keys present in both maps, the fraction
whose lower-cased, trimmed values agree. -/
def compareKeyValues (kv1 kv2 : Option (List (String × String))) : Frac :=
  match kv1, kv2 with
  | some kv1, some kv2 =>
    let keys1 := kv1.map (·.1)
    let keys2 := kv2.map (·.1)
    if keys1.isEmpty || keys2.isEmpty then ⟨0, 1⟩
    else
      let commonKeys := keys1.filter (fun k => keys2.contains k)
      if commonKeys.isEmpty then ⟨0, 1⟩
      else
        let matchingValues := commonKeys.countP (fun k =>
          (jsLookup kv1 k).map lowerTrim == (jsLookup kv2 k).map lowerTrim)
        ⟨matchingValues, commonKeys.length⟩
  | _, _ => ⟨0, 1⟩

structure DupResult where
  isDuplicate : Bool
  reason : String
  confidence : Frac
  deriving Repr, DecidableEq

/-- The first rule's guard in `checkDuplicate`: both doctors present
(JS-truthy, i.e. non-empty) and equal after lower-casing/trimming, and the
two dates fall on the same calendar day. -/
def doctorDayMatch (e : DocumentData) (n : AnalysisData) : Bool :=
  match n.doctor, e.doctor with
  | some nd, some ed =>
    nd != "" && ed != "" && (lowerTrim ed == lowerTrim nd) &&
      (e.date.dayKey == n.date.dayKey)
  | _, _ => false

def pctStr (f : Frac) : String :=
  toString (Frac.jsRound (Frac.mul f ⟨100, 1⟩))

/-- Signal 2 of `checkDuplicate`: the source skips the conclusion
comparison when either conclusion is absent or empty (JS-falsy); the model
folds that skip into a similarity of `0`, which never reaches the `0.7`
threshold — the observable behavior is identical. -/
def conclusionSim (e : DocumentData) (n : AnalysisData) : Frac :=
  match n.conclusion, e.conclusion with
  | some nc, some ec =>
    if nc != "" && ec != "" then calculateSimilarity ec nc else ⟨0, 1⟩
  | _, _ => ⟨0, 1⟩

/-- `checkDuplicate`: four prioritized signals, first hit wins. -/
def checkDuplicate (e : DocumentData) (n : AnalysisData) : DupResult :=
  if doctorDayMatch e n then
    { isDuplicate := true, reason := "Тот же врач в тот же день",
      confidence := ⟨9, 10⟩ }
  else
    let concSim := conclusionSim e n
    if Frac.le ⟨7, 10⟩ concSim then
      { isDuplicate := true
        reason := "Схожее заключение (" ++ pctStr concSim ++ "%)"
        confidence := concSim }
    else
      let kvMatch := compareKeyValues e.keyValues n.keyValues
      if Frac.le ⟨8, 10⟩ kvMatch then
        { isDuplicate := true
          reason := "Совпадающие показатели (" ++ pctStr kvMatch ++ "%)"
          confidence := kvMatch }
      else
        let titleSimilarity := calculateSimilarity e.title (n.title.getD "")
        if Frac.le ⟨1, 2⟩ titleSimilarity then
          { isDuplicate := true
            reason := "Схожее название (" ++ pctStr titleSimilarity ++ "%)"
            confidence := titleSimilarity }
        else
          { isDuplicate := false, reason := "", confidence := ⟨0, 1⟩ }

/-- `findDuplicate`: first match over the candidate pool, in list order. -/
def findDuplicate (documents : List DocumentData) (newAnalysis : AnalysisData) :
    Option (DocumentData × String × Frac) :=
  match documents with
  | [] => none
  | doc :: rest =>
    let result := checkDuplicate doc newAnalysis
    if result.isDuplicate then some (doc, result.reason, result.confidence)
    else findDuplicate rest newAnalysis

/-! ## Derived taxonomy predicates used by the theorems -/

/-- The list of valid subtype values of the taxonomy. -/
def subtypeValues : List String := ALL_SUBTYPES.map SubtypeEntry.value

/-- The disjunction of every condition under which the category half of
`normalizeDocumentType` recognizes its (lower-cased, trimmed) input. -/
def categoryRecognized (cat : String) : Bool :=
  DOCUMENT_CATEGORIES.any (fun c => c.value == cat) ||
  jsIncludes cat "заключен" || jsIncludes cat "консультац" ||
  jsIncludes cat "выпис" ||
  jsIncludes cat "анализ" || jsIncludes cat "кровь" || jsIncludes cat "моч" ||
  jsIncludes cat "исследован" || jsIncludes cat "узи" ||
  jsIncludes cat "кт" || jsIncludes cat "мрт"

/-- The disjunction of every condition under which the subtype half of
`normalizeDocumentType` recognizes its (lower-cased, trimmed) input:
an exact enum hit or any keyword rule. -/
def subtypeRecognized (sub : String) : Bool :=
  (ALL_SUBTYPES.find? (fun s => s.value == sub)).isSome ||
  (subtypeKeyword sub).isSome

/-! ## The Telegram webhook route

A state-machine embedding of the bot webhook (`POST`, its command
dispatcher, the batch collector, `checkDuplicatesAndSave` and
`handleCallbackQuery`).  Modelling conventions:

* The webhook partitions every store query by `chatId`; the model is the
  projection onto one conversation key, which the code never lets
  interact with another.
* Record ids (`cuid()` in the store) are modelled as a counter-generated
  string; times (`Date.now()`, `receivedAt`, `expiresAt`) as millisecond
  epoch `Int`s, with calendar-day arithmetic rendered as exact
  86 400 000 ms steps.
* External collaborators (file download, blob upload, the AI analyzer,
  PDF assembly, message-send results) are oracle inputs: each event
  carries an `Oracle` giving the values those calls would return and
  whether the fallible step groups succeed.  A well-formed oracle
  (`Oracle.wf`) returns a real blob URL, never one of the store's two
  internal sentinel shapes.
* Outbound notifications are recorded as structured `Eff` events, one
  constructor per distinct `sendMessage`/`editMessage` call site of the
  source, carrying exactly the dynamic data interpolated there; store
  writes are state updates.  A Prisma nested create
  (`document.create` with `measurements.create`) is a single atomic
  update; a thrown error leaves previously committed writes in place
  (mirroring the source's try/catch placement). -/

def markerUrl : String := "__batch_marker__"

def STATE_PREFIX : String := "__state__:"

def strStartsWith (s p : String) : Bool :=
  p.data.isPrefixOf s.data

/-- JS `a || b` on an optional/nullable string (empty string is falsy). -/
def jsOrStr (o : Option String) (d : String) : String :=
  match o with
  | some s => if s = "" then d else s
  | none => d

/-- JS `a || null` on an optional string. -/
def jsOrNull (o : Option String) : Option String :=
  match o with
  | some s => if s = "" then none else some s
  | none => none

/-- JS `s.split(c)` (all occurrences, empty segments kept). -/
def splitChAux (ch : Char) : List Char → List Char → List String
  | acc, [] => [String.mk acc.reverse]
  | acc, c :: t =>
    if c = ch then String.mk acc.reverse :: splitChAux ch [] t
    else splitChAux ch (c :: acc) t

def splitOnChar (ch : Char) (s : String) : List String :=
  splitChAux ch [] s.data

/-- `toDateString()` equality bucket for a millisecond instant (UTC day;
the deployment runs in a fixed zone, where bucket equality coincides). -/
def dayOfMs (t : Int) : Int := Int.fdiv t 86400000

/-- A `BatchPending` row (the model's conversation key is implicit). -/
structure BatchRec where
  fileUrl : String
  fileType : String
  receivedAt : Int
  deriving Repr, DecidableEq

def isMarkerRec (r : BatchRec) : Bool := r.fileUrl == markerUrl

def isStateRec (r : BatchRec) : Bool := strStartsWith r.fileUrl STATE_PREFIX

/-- The serialized candidate payload `documentData` built by
`checkDuplicatesAndSave` (also the column set of a `Document` row).
`date` is an ISO instant string in the source; the model keeps the
instant, which the ISO round-trip preserves. -/
structure DocData where
  date : Int
  category : String
  subtype : String
  title : String
  doctor : Option String
  specialty : Option String
  clinic : Option String
  summary : Option String
  conclusion : Option String
  recommendations : List String
  content : Option String
  fileUrl : String
  fileName : String
  fileType : String
  tags : List String
  keyValues : Option (List (String × String))
  deriving Repr, DecidableEq

structure DocRow where
  id : String
  data : DocData
  deriving Repr, DecidableEq

/-- A `Measurement` row, owned by a document through `documentId`. -/
structure MeasRow where
  documentId : String
  name : String
  value : Frac
  unit : String
  date : Int
  deriving Repr, DecidableEq

structure PendingRec where
  id : String
  documentData : DocData
  duplicateId : Option String
  expiresAt : Int
  messageId : Option Int
  deriving Repr, DecidableEq

structure DB where
  batch : List BatchRec
  docs : List DocRow
  meas : List MeasRow
  pendings : List PendingRec
  vitals : List (String × Frac × Option Frac × String)
  symptoms : List String
  meds : List (String × Option String × Option String)
  nextId : Nat
  deriving Repr, DecidableEq

def DB.empty : DB :=
  { batch := [], docs := [], meas := [], pendings := [], vitals := [],
    symptoms := [], meds := [], nextId := 0 }

/-- The analyzer's structured result (`AnalysisResult` of
`src/lib/claude.ts`), restricted to the fields the webhook consumes.
`date` is a nullable date string in the source, parsed with `new Date`;
the model carries the parsed instant. -/
structure AnalysisResult where
  category : String
  subtype : String
  title : String
  date : Option Int
  doctor : Option String
  specialty : Option String
  clinic : Option String
  summary : Option String
  conclusion : Option String
  recommendations : List String
  keyValues : Option (List (String × String))
  tags : List String
  deriving Repr, DecidableEq

/-- Oracle for one inbound event: results of the external calls the
handlers make, and success of the fallible step groups. -/
structure Oracle where
  timestamp : Int
  blobUrl : String
  msgId : Int
  analysis : AnalysisResult
  preOk : Bool
  batchOk : Bool
  docCreateOk : Bool
  pendingCreateOk : Bool
  defaultFileName : String
  deriving Repr, DecidableEq

/-- Blob-store URLs are `https://…` addresses and can never collide with
the two in-store sentinel shapes. -/
def Oracle.wf (o : Oracle) : Prop :=
  o.blobUrl ≠ markerUrl ∧ strStartsWith o.blobUrl STATE_PREFIX = false

/-! ### Structured outbound events -/

inductive Eff where
  | answerCb
  | noAccess
  | startMenu
  | helpMenu
  | statusMsg
  | lastDocsMsg
  | batchAlready (pageCount : Nat)
  | batchStarted
  | batchCancelled (pageCount : Nat)
  | nothingToCancel
  | extractReport
  | diaryMenu
  | mainMenu
  | symptomMenu
  | vitalsMenu
  | vitalPrompt (vitalType : String)
  | medsList
  | medAdded (name : String)
  | medNameMissing
  | vitalUnrecognized
  | vitalSaved (vitalType : String)
  | symptomSaved (name : String)
  | symptomCustomPrompt
  | editSymptomSaved (messageId : Int) (name : String)
  | receivedPhoto
  | receivedDoc (fileName : String)
  | pageAdded (count : Nat)
  | addPageFailed
  | batchProcessing (pageCount : Nat)
  | blobPut (name : String)
  | aiAnalyzing
  | analyzeSingle (url : String) (mime : String)
  | analyzeMulti (images : List (String × String))
  | successMsg (documentId : String)
  | dupPrompt (pendingId : String)
  | genericError
  | unsupportedType (mime : String)
  | nothingCollected
  | noPagesToProcess
  | unknownMessage
  | editElapsed (messageId : Int)
  | editCancelled (messageId : Int)
  | editAdded (messageId : Int) (documentId : String)
  | editReplaced (messageId : Int) (documentId : String)
  | editDupGone (messageId : Int)
  | editDupMissing (messageId : Int)
  | cbError (messageId : Int)
  | readyMsg
  deriving Repr, DecidableEq

/-! ### User-state helpers (`setUserState` and friends) -/

def getUserState (db : DB) : Option String :=
  (db.batch.find? isStateRec).map
    (fun r => String.mk (r.fileUrl.data.drop STATE_PREFIX.length))

def setUserState (state : String) (t : Int) (db : DB) : DB :=
  { db with batch := db.batch.filter (fun r => !(isStateRec r)) ++
      [⟨STATE_PREFIX ++ state, "state", t⟩] }

def clearUserState (db : DB) : DB :=
  { db with batch := db.batch.filter (fun r => !(isStateRec r)) }

/-! ### `src/lib/diary.ts` (the slice the webhook uses) -/

structure VitalSignConfig where
  type : String
  name : String
  unit : String
  hasSecondValue : Bool
  normMin : Option Frac
  normMax : Option Frac
  normMin2 : Option Frac
  normMax2 : Option Frac
  icon : String
  deriving Repr, DecidableEq

def VITAL_SIGNS_CONFIG : List VitalSignConfig :=
  [⟨"temperature", "Температура", "°C", false,
    some ⟨36, 1⟩, some ⟨37, 1⟩, none, none, "🌡"⟩,
   ⟨"pressure", "Давление", "мм рт.ст.", true,
    some ⟨90, 1⟩, some ⟨140, 1⟩, some ⟨60, 1⟩, some ⟨90, 1⟩, "💓"⟩,
   ⟨"pulse", "Пульс", "уд/мин", false,
    some ⟨60, 1⟩, some ⟨100, 1⟩, none, none, "❤️"⟩,
   ⟨"spo2", "Сатурация", "%", false,
    some ⟨95, 1⟩, some ⟨100, 1⟩, none, none, "🫁"⟩,
   ⟨"weight", "Вес", "кг", false, none, none, none, none, "⚖️"⟩]

def getVitalSignConfig (type : String) : Option VitalSignConfig :=
  VITAL_SIGNS_CONFIG.find? (fun v => v.type == type)

/-- The pressure regex `^(\d+)[\/\s](\d+)$`. -/
def splitPressure (cs : List Char) : Option (List Char × List Char) :=
  let d1 := cs.takeWhile Char.isDigit
  let rest := cs.dropWhile Char.isDigit
  if d1.isEmpty then none
  else
    match rest with
    | sep :: rest2 =>
      if sep = '/' || isWs sep then
        let d2 := rest2.takeWhile Char.isDigit
        if !d2.isEmpty && (rest2.dropWhile Char.isDigit).isEmpty then
          some (d1, d2)
        else none
      else none
    | [] => none

def parseVitalSignInput (input : String) (type : String) :
    Option (Frac × Option Frac) :=
  match getVitalSignConfig type with
  | none => none
  | some config =>
    let trimmed := jsTrim input
    let pressureTry : Option (Frac × Option Frac) :=
      if config.hasSecondValue then
        match splitPressure trimmed.data with
        | some d => some (⟨natOfDigits d.1, 1⟩, some ⟨natOfDigits d.2, 1⟩)
        | none => none
      else none
    match pressureTry with
    | some r => some r
    | none =>
      match jsParseFloat (String.mk (replaceFirstComma trimmed.data)) with
      | none => none
      | some v => some (v, none)

/-! ### Sorting for `orderBy` clauses (stable insertion sorts) -/

def insertReceivedAsc (a : BatchRec) : List BatchRec → List BatchRec
  | [] => [a]
  | x :: t =>
    if a.receivedAt ≤ x.receivedAt then a :: x :: t
    else x :: insertReceivedAsc a t

def sortByReceivedAt : List BatchRec → List BatchRec
  | [] => []
  | a :: t => insertReceivedAsc a (sortByReceivedAt t)

def insertDateDesc (a : DocRow) : List DocRow → List DocRow
  | [] => [a]
  | x :: t =>
    if x.data.date ≤ a.data.date then a :: x :: t
    else x :: insertDateDesc a t

def sortByDateDesc : List DocRow → List DocRow
  | [] => []
  | a :: t => insertDateDesc a (sortByDateDesc t)

/-! ### `checkDuplicatesAndSave` -/

def toDocumentData (r : DocRow) : DocumentData :=
  { id := r.id, date := ⟨dayOfMs r.data.date⟩, title := r.data.title,
    doctor := r.data.doctor, conclusion := r.data.conclusion,
    keyValues := r.data.keyValues }

def candidateAnalysis (analysis : AnalysisResult) (docDate : Int) :
    AnalysisData :=
  { date := ⟨dayOfMs docDate⟩, title := some analysis.title,
    doctor := analysis.doctor, conclusion := analysis.conclusion,
    keyValues := analysis.keyValues }

/-- The ±7-day candidate pool, most recent first, capped at 20. -/
def candidatePool (db : DB) (docDate : Int) : List DocumentData :=
  ((sortByDateDesc (db.docs.filter (fun r =>
      decide (docDate - 7 * 86400000 ≤ r.data.date) &&
      decide (r.data.date ≤ docDate + 7 * 86400000)))).take 20).map
    toDocumentData

def buildDocData (o : Oracle) (analysis : AnalysisResult) (docDate : Int)
    (fileUrl : String) (pageCount : Nat)
    (caption fileName fileType : Option String) : DocData :=
  let norm := normalizeDocumentType analysis.category analysis.subtype
  { date := docDate
    category := norm.1
    subtype := norm.2
    title := if analysis.title = "" then "Документ из Telegram"
      else analysis.title
    doctor := analysis.doctor
    specialty := analysis.specialty
    clinic := analysis.clinic
    summary := analysis.summary
    conclusion := analysis.conclusion
    recommendations := analysis.recommendations
    content :=
      match caption with
      | some c =>
        if c = "" then
          (if pageCount > 1 then
            some ("Документ из " ++ toString pageCount ++ " страниц")
          else none)
        else some c
      | none =>
        if pageCount > 1 then
          some ("Документ из " ++ toString pageCount ++ " страниц")
        else none
    fileUrl := fileUrl
    fileName := jsOrStr fileName o.defaultFileName
    fileType := jsOrStr fileType "image/jpeg"
    tags := analysis.tags
    keyValues := analysis.keyValues }

def checkDuplicatesAndSave (o : Oracle) (analysis : AnalysisResult)
    (fileUrl : String) (pageCount : Nat)
    (caption fileName fileType : Option String) (db : DB) : DB × List Eff :=
  let docDate := analysis.date.getD o.timestamp
  let documentData :=
    buildDocData o analysis docDate fileUrl pageCount caption fileName fileType
  match findDuplicate (candidatePool db docDate)
      (candidateAnalysis analysis docDate) with
  | some dup =>
    if o.pendingCreateOk then
      let pid := "p" ++ toString db.nextId
      let db1 := { db with
        pendings := db.pendings ++
          [(⟨pid, documentData, some dup.1.id, o.timestamp + 3600000,
             none⟩ : PendingRec)]
        nextId := db.nextId + 1 }
      let db2 := { db1 with
        pendings := db1.pendings.map (fun p : PendingRec =>
          if p.id == pid then { p with messageId := some o.msgId } else p) }
      (db2, [Eff.dupPrompt pid])
    else (db, [Eff.genericError])
  | none =>
    if o.docCreateOk then
      let did := "d" ++ toString db.nextId
      let ms := extractMeasurements documentData.keyValues
      let db1 := { db with
        docs := db.docs ++ [⟨did, documentData⟩]
        meas := db.meas ++
          ms.map (fun m => ⟨did, m.name, m.value, m.unit, docDate⟩)
        nextId := db.nextId + 1 }
      (db1, [Eff.successMsg did])
    else (db, [Eff.genericError])

/-! ### Photo / document / batch handlers -/

def addToBatch (o : Oracle) (db : DB) : DB × List Eff :=
  if o.preOk then
    let db1 := { db with
      batch := db.batch ++ [⟨o.blobUrl, "image/jpeg", o.timestamp⟩] }
    let count := (db1.batch.filter (fun r => r.fileUrl != markerUrl)).length
    (db1, [Eff.blobPut o.blobUrl, Eff.pageAdded count])
  else (db, [Eff.addPageFailed])

def processBatch (o : Oracle) (db : DB) : DB × List Eff :=
  let pages := sortByReceivedAt (db.batch.filter (fun r => r.fileUrl != markerUrl))
  if pages.isEmpty then
    if (db.batch.find? isMarkerRec).isSome then
      ({ db with batch := [] }, [Eff.nothingCollected])
    else (db, [Eff.noPagesToProcess])
  else
    let db1 := { db with batch := [] }
    let effs := [Eff.batchProcessing pages.length]
    -- the per-page `fetch(page.fileUrl)` loop runs before the analyzer;
    -- a `__state__:…` sentinel is not a parseable absolute URL (its scheme
    -- starts with an underscore), so its fetch throws and the catch block
    -- reports the error — regardless of how the external calls would fare
    if pages.any (fun p => strStartsWith p.fileUrl STATE_PREFIX) then
      (db1, effs ++ [Eff.genericError])
    else if o.batchOk then
      let images := pages.map (fun p => (p.fileUrl, p.fileType))
      let r := checkDuplicatesAndSave o o.analysis o.blobUrl pages.length
        none (some ("telegram-" ++ toString o.timestamp ++ "-combined.pdf"))
        (some "application/pdf") db1
      (r.1, effs ++
        [Eff.blobPut ("documents/tg-" ++ toString o.timestamp ++ "-combined.pdf"),
         Eff.aiAnalyzing, Eff.analyzeMulti images] ++ r.2)
    else
      (db1, effs ++ [Eff.genericError])

def processPhoto (o : Oracle) (caption : Option String) (db : DB) :
    DB × List Eff :=
  if o.preOk then
    let r := checkDuplicatesAndSave o o.analysis o.blobUrl 1 caption none none db
    (r.1, [Eff.receivedPhoto, Eff.blobPut o.blobUrl, Eff.aiAnalyzing,
      Eff.analyzeSingle o.blobUrl "image/jpeg"] ++ r.2)
  else (db, [Eff.receivedPhoto, Eff.genericError])

def processDocument (o : Oracle) (fileName0 mimeType0 : Option String)
    (caption : Option String) (db : DB) : DB × List Eff :=
  let mimeType := jsOrStr mimeType0 "application/octet-stream"
  let fileName := jsOrStr fileName0 "document"
  let isAllowed :=
    ["application/pdf", "image/jpeg", "image/png", "image/webp"].any
      (fun t => jsIncludes mimeType ((splitOnChar '/' t).getD 1 ""))
  if !isAllowed then (db, [Eff.unsupportedType mimeType])
  else if o.preOk then
    let r := checkDuplicatesAndSave o o.analysis o.blobUrl 1 caption
      (some fileName) (some mimeType) db
    (r.1, [Eff.receivedDoc fileName, Eff.blobPut o.blobUrl, Eff.aiAnalyzing,
      Eff.analyzeSingle o.blobUrl mimeType] ++ r.2)
  else (db, [Eff.receivedDoc fileName, Eff.genericError])

/-! ### Batch start/cancel, diary inputs, `/med` -/

def batchStart (o : Oracle) (db : DB) : DB × List Eff :=
  if !db.batch.isEmpty then
    (db, [Eff.batchAlready
      (db.batch.filter (fun r => r.fileUrl != markerUrl)).length])
  else
    ({ db with batch := db.batch ++ [⟨markerUrl, "marker", o.timestamp⟩] },
     [Eff.batchStarted])

def batchCancel (db : DB) : DB × List Eff :=
  let pageCount := (db.batch.filter (fun r => r.fileUrl != markerUrl)).length
  let deleted := db.batch.length
  ({ db with batch := [] },
   [if deleted > 0 then Eff.batchCancelled pageCount else Eff.nothingToCancel])

def medAdd (text : String) (db : DB) : DB × List Eff :=
  let parts := (splitOnChar ',' (String.mk (text.data.drop 5))).map jsTrim
  let name := parts.headD ""
  if name = "" then (db, [Eff.medNameMissing])
  else
    ({ db with meds := db.meds ++
        [(name, jsOrNull (parts.get? 1), jsOrNull (parts.get? 2))] },
     [Eff.medAdded name])

def vitalInput (text st : String) (db : DB) : DB × List Eff :=
  let vitalType := ((splitOnChar ':' st).get? 1).getD ""
  match parseVitalSignInput text vitalType with
  | none => (db, [Eff.vitalUnrecognized])
  | some parsed =>
    -- `parsed.value2 || null`: a zero second value is JS-falsy.
    let value2 :=
      match parsed.2 with
      | some v => if v.num == 0 then none else some v
      | none => none
    let unit := jsOrStr ((getVitalSignConfig vitalType).map (·.unit)) ""
    let db1 := clearUserState
      { db with vitals := db.vitals ++ [(vitalType, parsed.1, value2, unit)] }
    (db1, [Eff.vitalSaved vitalType])

def symptomInput (name : String) (db : DB) : DB × List Eff :=
  (clearUserState { db with symptoms := db.symptoms ++ [name] },
   [Eff.symptomSaved name])

/-! ### The message dispatcher and callback handler -/

structure TgMessage where
  text : Option String
  photo : Bool
  document : Option (Option String × Option String)
  caption : Option String
  deriving Repr, DecidableEq

def handleMedia (o : Oracle) (m : TgMessage) (db : DB) : DB × List Eff :=
  if m.photo then
    if db.batch.isEmpty then processPhoto o m.caption db
    else addToBatch o db
  else
    match m.document with
    | some d => processDocument o d.1 d.2 m.caption db
    | none =>
      match m.text with
      | some t =>
        if t ≠ "" && !(strStartsWith t "/") then (db, [Eff.unknownMessage])
        else (db, [])
      | none => (db, [])

/-- The text-command chain of the webhook's message handler, one branch
per `message.text === …` comparison of the source, in source order;
`none` means no command matched and control falls through to the
user-state and media handling. -/
def handleTextCommand (o : Oracle) (t : String) (db : DB) :
    Option (DB × List Eff) :=
  if t = "/start" then some (db, [Eff.startMenu])
  else if t = "/help" then some (db, [Eff.helpMenu])
  else if t = "/status" || t = "📊 Статистика" then some (db, [Eff.statusMsg])
  else if t = "/last" || t = "📋 Последние" then some (db, [Eff.lastDocsMsg])
  else if t = "/batch" || t = "📎 Много фото" then some (batchStart o db)
  else if t = "/cancel" || t = "❌ Отмена" then some (batchCancel db)
  else if t = "/done" || t = "✅ Готово" then some (processBatch o db)
  else if t = "/extract" || t = "📋 Выписка" then some (db, [Eff.extractReport])
  else if t = "📋 Дневник" then some (db, [Eff.diaryMenu])
  else if t = "◀️ Назад" then some (db, [Eff.mainMenu])
  else if t = "🩺 Симптом" then some (db, [Eff.symptomMenu])
  else if t = "🌡 Показатели" then some (db, [Eff.vitalsMenu])
  else if t = "🌡 Температура" then
    some (setUserState "awaiting_vital:temperature" o.timestamp db,
      [Eff.vitalPrompt "temperature"])
  else if t = "💓 Давление" then
    some (setUserState "awaiting_vital:pressure" o.timestamp db,
      [Eff.vitalPrompt "pressure"])
  else if t = "❤️ Пульс" then
    some (setUserState "awaiting_vital:pulse" o.timestamp db,
      [Eff.vitalPrompt "pulse"])
  else if t = "🫁 Сатурация" then
    some (setUserState "awaiting_vital:spo2" o.timestamp db,
      [Eff.vitalPrompt "spo2"])
  else if t = "💊 Лекарства" then some (db, [Eff.medsList])
  else if strStartsWith t "/med " then some (medAdd t db)
  else none

def handleMessage (o : Oracle) (allowed : Bool) (m : TgMessage) (db : DB) :
    DB × List Eff :=
  if !allowed then (db, [Eff.noAccess])
  else
    match (match m.text with
           | some t => handleTextCommand o t db
           | none => none) with
    | some r => r
    | none =>
      match getUserState db with
      | some st =>
        if strStartsWith st "awaiting_vital:" then
          vitalInput (m.text.getD "") st db
        else if strStartsWith st "awaiting_symptom:" then
          symptomInput (jsOrStr m.text "Неизвестный симптом") db
        else handleMedia o m db
      | none => handleMedia o m db

/-- The document-field update performed by the replace branch: every
column from the payload, except that a null payload `keyValues` is passed
as `undefined`, which Prisma treats as "leave unchanged". -/
def replacedData (dd : DocData) (old : DocData) : DocData :=
  { dd with keyValues :=
      match dd.keyValues with
      | none => old.keyValues
      | some kv => some kv }

def handleCallbackQuery (o : Oracle) (data : Option String)
    (message : Option Int) (db : DB) : DB × List Eff :=
  match data, message with
  | some d, some messageId =>
    if d = "" then (db, [Eff.answerCb])
    else if strStartsWith d "symptom:" then
      let symptomName := String.mk (d.data.drop "symptom:".length)
      if symptomName = "custom" then
        (setUserState "awaiting_symptom:custom" o.timestamp db,
         [Eff.answerCb, Eff.symptomCustomPrompt])
      else
        ({ db with symptoms := db.symptoms ++ [symptomName] },
         [Eff.answerCb, Eff.editSymptomSaved messageId symptomName])
    else
      let parts := splitOnChar ':' d
      let action := parts.headD ""
      match parts.get? 1 with
      | none =>
        -- `pendingId` is `undefined`: `findUnique` throws, the catch
        -- reports the error back into the conversation.
        (db, [Eff.answerCb, Eff.cbError messageId])
      | some pendingId =>
        match db.pendings.find? (fun p => p.id == pendingId) with
        | none => (db, [Eff.answerCb, Eff.editElapsed messageId])
        | some pending =>
          let docData := pending.documentData
          if action = "cancel" then
            ({ db with
                pendings := db.pendings.filter (fun p => !(p.id == pendingId)) },
             [Eff.answerCb, Eff.editCancelled messageId, Eff.readyMsg])
          else if action = "add" then
            let did := "d" ++ toString db.nextId
            let ms := extractMeasurements docData.keyValues
            ({ db with
                docs := db.docs ++ [⟨did, docData⟩]
                meas := db.meas ++
                  ms.map (fun mm => ⟨did, mm.name, mm.value, mm.unit, docData.date⟩)
                pendings := db.pendings.filter (fun p => !(p.id == pendingId))
                nextId := db.nextId + 1 },
             [Eff.answerCb, Eff.editAdded messageId did, Eff.readyMsg])
          else if action = "replace" then
            match pending.duplicateId with
            | none => (db, [Eff.answerCb, Eff.editDupMissing messageId])
            | some dupId =>
              match db.docs.find? (fun r => r.id == dupId) with
              | none =>
                ({ db with
                    pendings := db.pendings.filter (fun p => !(p.id == pendingId)) },
                 [Eff.answerCb, Eff.editDupGone messageId])
              | some old =>
                ({ db with
                    docs := db.docs.map (fun r =>
                      if r.id == dupId then ⟨r.id, replacedData docData old.data⟩
                      else r)
                    pendings := db.pendings.filter (fun p => !(p.id == pendingId)) },
                 [Eff.answerCb, Eff.editReplaced messageId dupId, Eff.readyMsg])
          else (db, [Eff.answerCb])
  | _, _ => (db, [Eff.answerCb])

inductive TgUpdate where
  | message (allowed : Bool) (m : TgMessage)
  | callback (data : Option String) (message : Option Int)
  deriving Repr, DecidableEq

/-- The webhook entry point. -/
def POST (o : Oracle) (u : TgUpdate) (db : DB) : DB × List Eff :=
  match u with
  | .callback d msg => handleCallbackQuery o d msg db
  | .message allowed m => handleMessage o allowed m db

/-- The store states reachable from an empty store through webhook
invocations with well-formed oracles. -/
inductive Reachable : DB → Prop where
  | init : Reachable DB.empty
  | step (db : DB) (o : Oracle) (u : TgUpdate) (h : Reachable db)
      (hwf : Oracle.wf o) : Reachable (POST o u db).1


/-! ## Batch-collector invariant notions

`mCount` counts the active-session marker rows of the conversation,
`pRecs` are its accumulated page rows (neither marker nor user-state
sentinel), and `StateWF` records that every user-state row carries one of
the two `awaiting_…` payload shapes the code ever writes. -/

def stripState (u : String) : String := String.mk (u.data.drop STATE_PREFIX.length)

def mCount (l : List BatchRec) : Nat := (l.filter isMarkerRec).length

def pRecs (l : List BatchRec) : List BatchRec :=
  l.filter (fun r => !(isMarkerRec r) && !(isStateRec r))

def StateWF (l : List BatchRec) : Prop :=
  ∀ r ∈ l, isStateRec r = true →
    strStartsWith (stripState r.fileUrl) "awaiting_vital:" = true ∨
    strStartsWith (stripState r.fileUrl) "awaiting_symptom:" = true

def BatchInv (db : DB) : Prop :=
  mCount db.batch ≤ 1 ∧ (pRecs db.batch ≠ [] → mCount db.batch = 1) ∧
    StateWF db.batch

/-! ## Concrete fixtures used by the theorems -/

def payload0 : DocData :=
  { date := 5000000, category := "анализы", subtype := "кровь",
    title := "Анализ крови", doctor := none, specialty := none, clinic := none,
    summary := none, conclusion := none, recommendations := [], content := none,
    fileUrl := "https://blob/f.jpg", fileName := "f.jpg", fileType := "image/jpeg",
    tags := [], keyValues := none }

/-- A store holding one Pending Decision whose `expiresAt` (epoch 0) lies
in the past of any possible resolution instant. -/
def dbExpired : DB :=
  { DB.empty with
      pendings := [⟨"p0", payload0, some "d0", 0, some 1⟩]
      nextId := 1 }

def anFix : AnalysisResult :=
  { category := "анализы", subtype := "кровь", title := "Анализ крови",
    date := some 5000000, doctor := some "Иванов", specialty := none,
    clinic := none, summary := none, conclusion := none,
    recommendations := [], keyValues := none, tags := [] }

def oracleAt (t : Int) (url : String) : Oracle :=
  { timestamp := t, blobUrl := url, msgId := 7, analysis := anFix,
    preOk := true, batchOk := true, docCreateOk := true,
    pendingCreateOk := true, defaultFileName := "Загрузка.jpg" }

def textMsg (t : String) : TgMessage :=
  { text := some t, photo := false, document := none, caption := none }

def photoMsg : TgMessage :=
  { text := none, photo := true, document := none, caption := none }

/-- Marker, one photo page, and an awaiting-input state row — reachable
via `/batch`, a photo, then the temperature button. -/
def dbMixed : DB :=
  { DB.empty with batch :=
      [⟨markerUrl, "marker", 1000⟩,
       ⟨"https://blob/u1.jpg", "image/jpeg", 2000⟩,
       ⟨"__state__:awaiting_vital:temperature", "state", 3000⟩] }

/-- Marker and two photo pages, no state row. -/
def dbTwoPages : DB :=
  { DB.empty with batch :=
      [⟨markerUrl, "marker", 1000⟩,
       ⟨"https://blob/u1.jpg", "image/jpeg", 2000⟩,
       ⟨"https://blob/u2.jpg", "image/jpeg", 3000⟩] }

/-- One stored document with a measurement row, and a Pending Decision
colliding with it. -/
def dbReplace : DB :=
  { DB.empty with
      docs := [⟨"d0",
        { payload0 with
            title := "Старый"
            keyValues := some [("ПСА", "4")] }⟩]
      meas := [⟨"d0", "ПСА общий", ⟨4, 1⟩, "нг/мл", 5000000⟩]
      pendings := [⟨"p0", payload0, some "d0", 0, some 1⟩]
      nextId := 1 }

/-! # Theorems

## Taxonomy and duplicate-detector theorems -/



/-- Claim C4: for every valid subtype value `s` and arbitrary category
string `c`, `normalizeDocumentType c s` returns `s` together with `s`'s
canonical category — the category argument never overrides an
exactly-matched subtype. -/
theorem normalizeDocumentType_subtype_wins (c s : String)
    (h : s ∈ subtypeValues) :
    normalizeDocumentType c s = (getCategoryBySubtype s, s) := by
  have e : subtypeValues =
      ["консультация", "выписка", "направление", "кровь", "биохимия",
       "онкомаркеры", "моча", "кал", "гистология", "узи", "кт", "мрт",
       "пэт-кт", "рентген", "экг", "эндоскопия", "колоноскопия",
       "другое"] := by decide
  rw [e] at h
  fin_cases h <;> rfl

/-- Witness for C4: a conflicting category string does not override the
exactly-matched subtype `"узи"`. -/
theorem normalizeDocumentType_subtype_wins_witness :
    normalizeDocumentType "заключения" "узи" =
      (getCategoryBySubtype "узи", "узи") :=
  normalizeDocumentType_subtype_wins "заключения" "узи" (by decide)





theorem normCategoryRaw_unrecognized (cat : String)
    (h : categoryRecognized cat = false) :
    normCategoryRaw cat = "другое" := by
  unfold categoryRecognized at h
  simp only [Bool.or_eq_false_iff] at h
  obtain ⟨⟨⟨⟨⟨⟨⟨⟨⟨⟨h1, h2⟩, h3⟩, h4⟩, h5⟩, h6⟩, h7⟩, h8⟩, h9⟩, h10⟩, h11⟩ := h
  unfold normCategoryRaw
  rw [h1, h2, h3, h4, h5, h6, h7, h8, h9, h10, h11]
  simp

/-- Claim C5: when neither the category nor the subtype matches any enum
value or keyword rule, `normalizeDocumentType` returns the explicit
`("другое", "другое")` fallback.  The function is total by construction
(the source has no throwing operation), so no input raises. -/
theorem normalizeDocumentType_fallback (c s : String)
    (hc : categoryRecognized (lowerTrim c) = false)
    (hs : subtypeRecognized (lowerTrim s) = false) :
    normalizeDocumentType c s = ("другое", "другое") := by
  unfold subtypeRecognized at hs
  obtain ⟨hs1, hs2⟩ := Bool.or_eq_false_iff.mp hs
  have hfind : ALL_SUBTYPES.find? (fun t => t.value == lowerTrim s) = none := by
    cases hf : ALL_SUBTYPES.find? (fun t => t.value == lowerTrim s) with
    | none => rfl
    | some v => rw [hf] at hs1; simp at hs1
  have hkw : subtypeKeyword (lowerTrim s) = none := by
    cases hk : subtypeKeyword (lowerTrim s) with
    | none => rfl
    | some v => rw [hk] at hs2; simp at hs2
  simp only [normalizeDocumentType]
  rw [hfind, hkw, normCategoryRaw_unrecognized _ hc]

/-- Witness for C5: a pair of garbage strings falls through to
`("другое", "другое")`. -/
theorem normalizeDocumentType_fallback_witness :
    normalizeDocumentType "xyz" "qwerty" = ("другое", "другое") :=
  normalizeDocumentType_fallback "xyz" "qwerty" (by decide) (by decide)

/-- Claim C6: equal non-empty doctors (after lower-casing and trimming)
on the same calendar day always yield a duplicate verdict with confidence
0.9 and the doctor reason, whatever the other fields hold. -/
theorem checkDuplicate_doctor_sameDay (e : DocumentData) (n : AnalysisData)
    (ed nd : String) (he : e.doctor = some ed) (hn : n.doctor = some nd)
    (hed : ed ≠ "") (hnd : nd ≠ "")
    (hsame : lowerTrim ed = lowerTrim nd)
    (hday : e.date.dayKey = n.date.dayKey) :
    checkDuplicate e n =
      { isDuplicate := true, reason := "Тот же врач в тот же день",
        confidence := ⟨9, 10⟩ } := by
  have hg : doctorDayMatch e n = true := by
    unfold doctorDayMatch
    rw [hn, he]
    simp [bne_iff_ne, hnd, hed, hsame, hday]
  simp [checkDuplicate, hg]

/-- Witness for C6: every other field differs, yet equal doctor and day
give the 0.9 verdict. -/
theorem checkDuplicate_doctor_sameDay_witness :
    checkDuplicate
        { id := "a", date := ⟨20170⟩, title := "Анализ крови",
          doctor := some "Иванов И.И.", conclusion := some "без динамики",
          keyValues := some [("ПСА", "4.2")] }
        { date := ⟨20170⟩, title := some "Совсем другой заголовок",
          doctor := some "  иванов и.и. ", conclusion := some "рост очага",
          keyValues := some [("Гемоглобин", "120")] } =
      { isDuplicate := true, reason := "Тот же врач в тот же день",
        confidence := ⟨9, 10⟩ } :=
  checkDuplicate_doctor_sameDay _ _ "Иванов И.И." "  иванов и.и. "
    rfl rfl (by decide) (by decide) (by decide) rfl

theorem Frac.not_le_of_lt (a b : Frac) (h : Frac.lt a b) : ¬ Frac.le b a := by
  unfold Frac.lt at h
  unfold Frac.le
  omega

/-- Claim C7: when the first signal's guard fails (differing or missing
doctor/day) and every similarity score stays strictly below its
threshold, `checkDuplicate` reports not-a-duplicate with an empty reason
and zero confidence. -/
theorem checkDuplicate_no_signal (e : DocumentData) (n : AnalysisData)
    (hdoc : doctorDayMatch e n = false)
    (hconc : ∀ ec nc, e.conclusion = some ec → n.conclusion = some nc →
      Frac.lt (calculateSimilarity ec nc) ⟨7, 10⟩)
    (hkv : Frac.lt (compareKeyValues e.keyValues n.keyValues) ⟨8, 10⟩)
    (htitle : Frac.lt (calculateSimilarity e.title (n.title.getD "")) ⟨1, 2⟩) :
    checkDuplicate e n =
      { isDuplicate := false, reason := "", confidence := ⟨0, 1⟩ } := by
  have hconc2 : ¬ Frac.le ⟨7, 10⟩ (conclusionSim e n) := by
    unfold conclusionSim
    split
    · rename_i nc ec hn he
      split
      · exact Frac.not_le_of_lt _ _ (hconc ec nc he hn)
      · decide
    · decide
  simp only [checkDuplicate, hdoc, Bool.false_eq_true, if_false]
  rw [if_neg hconc2, if_neg (Frac.not_le_of_lt _ _ hkv),
    if_neg (Frac.not_le_of_lt _ _ htitle)]

/-- Witness for C7: different doctors and days, weak similarities. -/
theorem checkDuplicate_no_signal_witness :
    checkDuplicate
        { id := "a", date := ⟨20170⟩, title := "Анализ крови",
          doctor := some "Иванов И.И.", conclusion := none,
          keyValues := none }
        { date := ⟨20171⟩, title := some "Консультация уролога",
          doctor := some "Петров П.П.", conclusion := none,
          keyValues := none } =
      { isDuplicate := false, reason := "", confidence := ⟨0, 1⟩ } :=
  checkDuplicate_no_signal _ _ (by decide)
    (fun ec nc hec _ => by simp at hec) (by decide) (by decide)

/-! ## Measurement-extraction theorem -/

/-- Claim C1 (counter-evidence): the extractor stores the parsed
hemoglobin value unchanged.  `"9.2 г/л"` is stored as 9.2 — the value the
repository's own test suite (`src/tests/metrics.test.ts`, "должен
автокорректировать ошибки OCR для гемоглобина") requires to be corrected
to 92 — and 9.2 is not the value 92; the `"84 г/л"` reading passes through
unchanged as the claim expects. -/
theorem extractMeasurements_no_ocr_correction :
    extractMeasurements (some [("Гемоглобин", "9.2 г/л")]) =
        [{ name := "Гемоглобин", value := ⟨92, 10⟩, unit := "г/л" }] ∧
      ¬ Frac.eqv ⟨92, 10⟩ (Frac.ofNat 92) ∧
      extractMeasurements (some [("Гемоглобин", "84 г/л")]) =
        [{ name := "Гемоглобин", value := ⟨84, 1⟩, unit := "г/л" }] := by
  refine ⟨by decide, by decide, by decide⟩


theorem isPrefixOf_append (l t : List Char) : l.isPrefixOf (l ++ t) = true := by
  induction l with
  | nil => simp [List.isPrefixOf]
  | cons c cs ih => simp [List.isPrefixOf, ih]

theorem statePrefix_ne_marker (x : String) :
    ((STATE_PREFIX ++ x : String) == markerUrl) = false := by
  apply beq_eq_false_iff_ne.mpr
  intro h
  have h3 : (STATE_PREFIX ++ x).data[2]? = markerUrl.data[2]? := by rw [h]
  rw [show (STATE_PREFIX ++ x).data = "__state__:".data ++ x.data from rfl] at h3
  simp [List.getElem?_append] at h3
  exact absurd h3 (by decide)

theorem stripState_of_append (x : String) :
    stripState (STATE_PREFIX ++ x) = x := by
  unfold stripState
  rw [show (STATE_PREFIX ++ x).data = "__state__:".data ++ x.data from rfl]
  rw [show STATE_PREFIX.length = ("__state__:".data).length from rfl]
  rw [List.drop_left]

theorem state_not_marker (r : BatchRec) (h : isStateRec r = true) :
    isMarkerRec r = false := by
  cases hm : (r.fileUrl == markerUrl) with
  | false => simp [isMarkerRec, hm]
  | true =>
    have e : r.fileUrl = markerUrl := eq_of_beq hm
    unfold isStateRec at h
    rw [e] at h
    exact absurd h (by decide)

theorem mCount_append (l1 l2 : List BatchRec) :
    mCount (l1 ++ l2) = mCount l1 + mCount l2 := by
  simp [mCount, List.filter_append]

theorem pRecs_append (l1 l2 : List BatchRec) :
    pRecs (l1 ++ l2) = pRecs l1 ++ pRecs l2 := by
  simp [pRecs, List.filter_append]

theorem mCount_filter_state (l : List BatchRec) :
    mCount (l.filter (fun r => !(isStateRec r))) = mCount l := by
  induction l with
  | nil => rfl
  | cons r t ih =>
    cases hs : isStateRec r with
    | true =>
      have hm : isMarkerRec r = false := state_not_marker r hs
      simpa [mCount, List.filter_cons, hs, hm] using ih
    | false =>
      cases hm : isMarkerRec r <;>
        simp [mCount, List.filter_cons, hs, hm] at ih ⊢ <;> try omega

theorem pRecs_filter_state (l : List BatchRec) :
    pRecs (l.filter (fun r => !(isStateRec r))) = pRecs l := by
  induction l with
  | nil => rfl
  | cons r t ih =>
    cases hs : isStateRec r with
    | true =>
      simp [pRecs, List.filter_cons, hs]
    | false =>
      cases hm : isMarkerRec r <;>
        simp [pRecs, List.filter_cons, hs, hm] at ih ⊢

theorem stateWF_filter (l : List BatchRec) (p : BatchRec → Bool)
    (h : StateWF l) : StateWF (l.filter p) := by
  intro r hr hs
  exact h r (List.mem_of_mem_filter hr) hs


theorem unchanged_guard (db : DB) :
    (pRecs db.batch).length > (pRecs db.batch).length → mCount db.batch = 1 :=
  fun h => absurd h (Nat.lt_irrefl _)

theorem ok_of_batch_eq (db db' : DB) (h : db'.batch = db.batch)
    (hinv : BatchInv db) :
    BatchInv db' ∧
    ((pRecs db'.batch).length > (pRecs db.batch).length →
      mCount db.batch = 1) := by
  constructor
  · unfold BatchInv at hinv ⊢
    rw [h]
    exact hinv
  · rw [h]
    exact unchanged_guard db

theorem ok_of_batch_nil (db db' : DB) (h : db'.batch = []) :
    BatchInv db' ∧
    ((pRecs db'.batch).length > (pRecs db.batch).length →
      mCount db.batch = 1) := by
  constructor
  · unfold BatchInv
    rw [h]
    refine ⟨by simp [mCount], by simp [pRecs], ?_⟩
    intro r hr
    exact absurd hr (List.not_mem_nil r)
  · rw [h]
    intro hgt
    simp [pRecs] at hgt

theorem ok_of_batch_filterState (db db' : DB)
    (h : db'.batch = db.batch.filter (fun r => !(isStateRec r)))
    (hinv : BatchInv db) :
    BatchInv db' ∧
    ((pRecs db'.batch).length > (pRecs db.batch).length →
      mCount db.batch = 1) := by
  obtain ⟨h1, h2, h3⟩ := hinv
  constructor
  · refine ⟨?_, ?_, ?_⟩
    · rw [h, mCount_filter_state]
      exact h1
    · rw [h, pRecs_filter_state, mCount_filter_state]
      exact h2
    · rw [h]
      exact stateWF_filter _ _ h3
  · rw [h, pRecs_filter_state]
    exact unchanged_guard db

theorem setUserState_ok (s : String) (t : Int) (db : DB)
    (hs : strStartsWith s "awaiting_vital:" = true ∨
      strStartsWith s "awaiting_symptom:" = true)
    (hinv : BatchInv db) :
    BatchInv (setUserState s t db) ∧
    ((pRecs (setUserState s t db).batch).length > (pRecs db.batch).length →
      mCount db.batch = 1) := by
  obtain ⟨h1, h2, h3⟩ := hinv
  have hrs : isStateRec ⟨STATE_PREFIX ++ s, "state", t⟩ = true := by
    show strStartsWith (STATE_PREFIX ++ s) STATE_PREFIX = true
    show STATE_PREFIX.data.isPrefixOf (STATE_PREFIX ++ s).data = true
    rw [show (STATE_PREFIX ++ s).data = STATE_PREFIX.data ++ s.data from rfl]
    exact isPrefixOf_append _ _
  have hrm : isMarkerRec ⟨STATE_PREFIX ++ s, "state", t⟩ = false := by
    show ((STATE_PREFIX ++ s : String) == markerUrl) = false
    exact statePrefix_ne_marker s
  have hmc : mCount (setUserState s t db).batch = mCount db.batch := by
    show mCount (db.batch.filter (fun r => !(isStateRec r)) ++ _) = _
    rw [mCount_append, mCount_filter_state]
    simp [mCount, List.filter_cons, hrm]
  have hpr : pRecs (setUserState s t db).batch = pRecs db.batch := by
    show pRecs (db.batch.filter (fun r => !(isStateRec r)) ++ _) = _
    rw [pRecs_append, pRecs_filter_state]
    simp [pRecs, List.filter_cons, hrs]
  refine ⟨⟨?_, ?_, ?_⟩, ?_⟩
  · rw [hmc]; exact h1
  · rw [hpr, hmc]; exact h2
  · intro r hr hsr
    rcases List.mem_append.mp hr with hmem | hmem
    · exact h3 r (List.mem_of_mem_filter hmem) hsr
    · have he : r = ⟨STATE_PREFIX ++ s, "state", t⟩ := List.mem_singleton.mp hmem
      subst he
      show strStartsWith (stripState (STATE_PREFIX ++ s)) "awaiting_vital:" = true ∨
        strStartsWith (stripState (STATE_PREFIX ++ s)) "awaiting_symptom:" = true
      rw [stripState_of_append]
      exact hs
  · rw [hpr]; exact unchanged_guard db




theorem cds_batch (o : Oracle) (analysis : AnalysisResult)
    (fileUrl : String) (pageCount : Nat)
    (caption fileName fileType : Option String) (db : DB) :
    (checkDuplicatesAndSave o analysis fileUrl pageCount caption fileName
      fileType db).1.batch = db.batch := by
  simp only [checkDuplicatesAndSave]
  split
  · split <;> rfl
  · split <;> rfl

theorem batchStart_ok (o : Oracle) (db : DB) (hinv : BatchInv db) :
    BatchInv (batchStart o db).1 ∧
    ((pRecs (batchStart o db).1.batch).length > (pRecs db.batch).length →
      mCount db.batch = 1) := by
  simp only [batchStart]
  split
  · exact ok_of_batch_eq db _ rfl hinv
  · rename_i h
    have hnil : db.batch = [] := by
      rw [← List.isEmpty_iff]
      simpa using h
    constructor
    · refine ⟨?_, ?_, ?_⟩ <;> rw [show ({ db with batch := db.batch ++
        [⟨markerUrl, "marker", o.timestamp⟩] } : DB).batch = db.batch ++
        [⟨markerUrl, "marker", o.timestamp⟩] from rfl, hnil]
      · simp [mCount, List.filter_cons, isMarkerRec]
      · intro _
        simp [mCount, List.filter_cons, isMarkerRec]
      · intro r hr hsr
        have he : r = ⟨markerUrl, "marker", o.timestamp⟩ := by
          simpa using hr
        subst he
        have hs2 : strStartsWith markerUrl STATE_PREFIX = true := hsr
        exact absurd hs2 (by decide)
    · intro hgt
      rw [show ({ db with batch := db.batch ++
        [⟨markerUrl, "marker", o.timestamp⟩] } : DB).batch = db.batch ++
        [⟨markerUrl, "marker", o.timestamp⟩] from rfl, hnil] at hgt
      simp [pRecs, List.filter_cons, isMarkerRec, isStateRec] at hgt

theorem batchCancel_ok (db : DB) :
    BatchInv (batchCancel db).1 ∧
    ((pRecs (batchCancel db).1.batch).length > (pRecs db.batch).length →
      mCount db.batch = 1) :=
  ok_of_batch_nil db _ rfl

theorem addToBatch_ok (o : Oracle) (db : DB) (hwf : Oracle.wf o)
    (hne : db.batch ≠ [])
    (hnostate : ∀ r ∈ db.batch, isStateRec r = false)
    (hinv : BatchInv db) :
    BatchInv (addToBatch o db).1 ∧
    ((pRecs (addToBatch o db).1.batch).length > (pRecs db.batch).length →
      mCount db.batch = 1) := by
  obtain ⟨h1, h2, h3⟩ := hinv
  have hm1 : mCount db.batch = 1 := by
    obtain ⟨r, t, hb⟩ : ∃ r t, db.batch = r :: t := by
      cases hbb : db.batch with
      | nil => exact absurd hbb hne
      | cons r t => exact ⟨r, t, rfl⟩
    have hmem : r ∈ db.batch := by
      rw [hb]; exact List.mem_cons_self r t
    have hsr : isStateRec r = false := hnostate r hmem
    rw [hb]
    cases hmr : isMarkerRec r with
    | true =>
      have hge : 1 ≤ mCount (r :: t) := by
        simp [mCount, List.filter_cons, hmr]
      have hle : mCount (r :: t) ≤ 1 := by rw [← hb]; exact h1
      omega
    | false =>
      have hpr : pRecs db.batch ≠ [] := by
        rw [hb]
        simp [pRecs, List.filter_cons, hmr, hsr]
      rw [← hb]
      exact h2 hpr
  have hpm : isMarkerRec ⟨o.blobUrl, "image/jpeg", o.timestamp⟩ = false := by
    show (o.blobUrl == markerUrl) = false
    exact beq_eq_false_iff_ne.mpr hwf.1
  have hps : isStateRec ⟨o.blobUrl, "image/jpeg", o.timestamp⟩ = false := hwf.2
  simp only [addToBatch]
  split
  · refine ⟨⟨?_, ?_, ?_⟩, fun _ => hm1⟩
    · show mCount (db.batch ++ _) ≤ 1
      rw [mCount_append]
      have hz : mCount [⟨o.blobUrl, "image/jpeg", o.timestamp⟩] = 0 := by
        simp [mCount, List.filter_cons, hpm]
      omega
    · intro _
      show mCount (db.batch ++ _) = 1
      rw [mCount_append]
      have hz : mCount [⟨o.blobUrl, "image/jpeg", o.timestamp⟩] = 0 := by
        simp [mCount, List.filter_cons, hpm]
      omega
    · intro r hr hsr
      rcases List.mem_append.mp hr with hmem | hmem
      · exact h3 r hmem hsr
      · have he : r = ⟨o.blobUrl, "image/jpeg", o.timestamp⟩ := by
          simpa using hmem
        subst he
        rw [hps] at hsr
        exact absurd hsr (by decide)
  · exact ⟨⟨h1, h2, h3⟩, unchanged_guard db⟩

theorem processBatch_ok (o : Oracle) (db : DB) (hinv : BatchInv db) :
    BatchInv (processBatch o db).1 ∧
    ((pRecs (processBatch o db).1.batch).length > (pRecs db.batch).length →
      mCount db.batch = 1) := by
  simp only [processBatch]
  split
  · split
    · exact ok_of_batch_nil db _ rfl
    · exact ok_of_batch_eq db _ rfl hinv
  · split
    · exact ok_of_batch_nil db _ rfl
    · split
      · exact ok_of_batch_nil db _ (cds_batch _ _ _ _ _ _ _ _)
      · exact ok_of_batch_nil db _ rfl


theorem mem_insertReceivedAsc (a p : BatchRec) (l : List BatchRec)
    (h : p ∈ insertReceivedAsc a l) : p = a ∨ p ∈ l := by
  induction l with
  | nil => simpa [insertReceivedAsc] using h
  | cons x t ih =>
    simp only [insertReceivedAsc] at h
    split at h
    · simpa using h
    · rcases List.mem_cons.mp h with h1 | h1
      · exact Or.inr (List.mem_cons.mpr (Or.inl h1))
      · rcases ih h1 with h2 | h2
        · exact Or.inl h2
        · exact Or.inr (List.mem_cons.mpr (Or.inr h2))

theorem mem_sortByReceivedAt (p : BatchRec) (l : List BatchRec)
    (h : p ∈ sortByReceivedAt l) : p ∈ l := by
  induction l with
  | nil => simp [sortByReceivedAt] at h
  | cons x t ih =>
    simp only [sortByReceivedAt] at h
    rcases mem_insertReceivedAsc x p _ h with h1 | h1
    · exact h1 ▸ List.mem_cons_self _ _
    · exact List.mem_cons.mpr (Or.inr (ih h1))

theorem noStateRow_pages (db : DB)
    (hstate : db.batch.filter isStateRec = []) :
    (sortByReceivedAt (db.batch.filter
        (fun r => r.fileUrl != markerUrl))).any
      (fun p => strStartsWith p.fileUrl STATE_PREFIX) = false := by
  rw [List.any_eq_false]
  intro p hp
  have hmem : p ∈ db.batch :=
    List.mem_of_mem_filter (mem_sortByReceivedAt p _ hp)
  have hns := List.filter_eq_nil_iff.mp hstate p hmem
  simpa [isStateRec] using hns

theorem processPhoto_batch (o : Oracle) (caption : Option String) (db : DB) :
    (processPhoto o caption db).1.batch = db.batch := by
  simp only [processPhoto]
  split
  · exact cds_batch _ _ _ _ _ _ _ _
  · rfl

theorem processDocument_batch (o : Oracle) (f m caption : Option String)
    (db : DB) :
    (processDocument o f m caption db).1.batch = db.batch := by
  simp only [processDocument]
  split
  · rfl
  · split
    · exact cds_batch _ _ _ _ _ _ _ _
    · rfl

theorem medAdd_batch (t : String) (db : DB) :
    (medAdd t db).1.batch = db.batch := by
  simp only [medAdd]
  split <;> rfl

theorem vitalInput_ok (text st : String) (db : DB) (hinv : BatchInv db) :
    BatchInv (vitalInput text st db).1 ∧
    ((pRecs (vitalInput text st db).1.batch).length > (pRecs db.batch).length →
      mCount db.batch = 1) := by
  simp only [vitalInput]
  split
  · exact ok_of_batch_eq db _ rfl hinv
  · exact ok_of_batch_filterState db _ rfl hinv

theorem symptomInput_ok (name : String) (db : DB) (hinv : BatchInv db) :
    BatchInv (symptomInput name db).1 ∧
    ((pRecs (symptomInput name db).1.batch).length > (pRecs db.batch).length →
      mCount db.batch = 1) :=
  ok_of_batch_filterState db _ rfl hinv

theorem BatchInv_congr (db1 db2 : DB) (h : db1.batch = db2.batch)
    (hinv : BatchInv db2) : BatchInv db1 := by
  unfold BatchInv at hinv ⊢
  rw [h]
  exact hinv

theorem handleCallbackQuery_batch (o : Oracle) (data : Option String)
    (message : Option Int) (db : DB) :
    (handleCallbackQuery o data message db).1.batch = db.batch ∨
    (handleCallbackQuery o data message db).1.batch =
      (setUserState "awaiting_symptom:custom" o.timestamp db).batch := by
  unfold handleCallbackQuery
  repeat' (first | split | (dsimp only))
  all_goals first | (left; rfl) | (right; rfl)

theorem handleCallbackQuery_ok (o : Oracle) (data : Option String)
    (message : Option Int) (db : DB) (hinv : BatchInv db) :
    BatchInv (handleCallbackQuery o data message db).1 ∧
    ((pRecs (handleCallbackQuery o data message db).1.batch).length >
        (pRecs db.batch).length →
      mCount db.batch = 1) := by
  rcases handleCallbackQuery_batch o data message db with h | h
  · exact ok_of_batch_eq db _ h hinv
  · have hs := setUserState_ok "awaiting_symptom:custom" o.timestamp db
      (Or.inr (by decide)) hinv
    constructor
    · exact BatchInv_congr _ _ h hs.1
    · intro hgt
      rw [h] at hgt
      exact hs.2 hgt

theorem handleMedia_ok (o : Oracle) (m : TgMessage) (db : DB)
    (hwf : Oracle.wf o)
    (hnostate : ∀ r ∈ db.batch, isStateRec r = false)
    (hinv : BatchInv db) :
    BatchInv (handleMedia o m db).1 ∧
    ((pRecs (handleMedia o m db).1.batch).length > (pRecs db.batch).length →
      mCount db.batch = 1) := by
  simp only [handleMedia]
  split
  · split
    · exact ok_of_batch_eq db _ (processPhoto_batch o m.caption db) hinv
    · rename_i hne
      exact addToBatch_ok o db hwf (by simpa [List.isEmpty_iff] using hne)
        hnostate hinv
  · split
    · exact ok_of_batch_eq db _ (processDocument_batch _ _ _ _ _) hinv
    · split
      · split
        · exact ok_of_batch_eq db _ rfl hinv
        · exact ok_of_batch_eq db _ rfl hinv
      · exact ok_of_batch_eq db _ rfl hinv


theorem state_prefix_of_getUserState (db : DB) (st : String)
    (h : getUserState db = some st) (hwfst : StateWF db.batch) :
    strStartsWith st "awaiting_vital:" = true ∨
    strStartsWith st "awaiting_symptom:" = true := by
  unfold getUserState at h
  rcases Option.map_eq_some'.mp h with ⟨r, hfind, hstrip⟩
  have hmem : r ∈ db.batch := List.mem_of_find?_eq_some hfind
  have hsr : isStateRec r = true := List.find?_some hfind
  have hpre := hwfst r hmem hsr
  subst hstrip
  exact hpre

theorem nostate_of_getUserState_none (db : DB) (h : getUserState db = none) :
    ∀ r ∈ db.batch, isStateRec r = false := by
  unfold getUserState at h
  have h2 : db.batch.find? isStateRec = none := by
    cases hf : db.batch.find? isStateRec with
    | none => rfl
    | some r => rw [hf] at h; simp at h
  intro r hr
  have h3 := List.find?_eq_none.mp h2 r hr
  simpa using h3

theorem handleTextCommand_ok (o : Oracle) (t : String) (db : DB)
    (r : DB × List Eff) (h : handleTextCommand o t db = some r)
    (hinv : BatchInv db) :
    BatchInv r.1 ∧
    ((pRecs r.1.batch).length > (pRecs db.batch).length →
      mCount db.batch = 1) := by
  unfold handleTextCommand at h
  by_cases h0 : t = "/start"
  · rw [if_pos h0, Option.some_inj] at h
    subst h
    exact ok_of_batch_eq db _ rfl hinv
  rw [if_neg h0] at h
  by_cases h1 : t = "/help"
  · rw [if_pos h1, Option.some_inj] at h
    subst h
    exact ok_of_batch_eq db _ rfl hinv
  rw [if_neg h1] at h
  by_cases h2 : (t = "/status" || t = "📊 Статистика") = true
  · rw [if_pos h2, Option.some_inj] at h
    subst h
    exact ok_of_batch_eq db _ rfl hinv
  rw [if_neg h2] at h
  by_cases h3 : (t = "/last" || t = "📋 Последние") = true
  · rw [if_pos h3, Option.some_inj] at h
    subst h
    exact ok_of_batch_eq db _ rfl hinv
  rw [if_neg h3] at h
  by_cases h4 : (t = "/batch" || t = "📎 Много фото") = true
  · rw [if_pos h4, Option.some_inj] at h
    subst h
    exact batchStart_ok o db hinv
  rw [if_neg h4] at h
  by_cases h5 : (t = "/cancel" || t = "❌ Отмена") = true
  · rw [if_pos h5, Option.some_inj] at h
    subst h
    exact batchCancel_ok db
  rw [if_neg h5] at h
  by_cases h6 : (t = "/done" || t = "✅ Готово") = true
  · rw [if_pos h6, Option.some_inj] at h
    subst h
    exact processBatch_ok o db hinv
  rw [if_neg h6] at h
  by_cases h7 : (t = "/extract" || t = "📋 Выписка") = true
  · rw [if_pos h7, Option.some_inj] at h
    subst h
    exact ok_of_batch_eq db _ rfl hinv
  rw [if_neg h7] at h
  by_cases h8 : t = "📋 Дневник"
  · rw [if_pos h8, Option.some_inj] at h
    subst h
    exact ok_of_batch_eq db _ rfl hinv
  rw [if_neg h8] at h
  by_cases h9 : t = "◀️ Назад"
  · rw [if_pos h9, Option.some_inj] at h
    subst h
    exact ok_of_batch_eq db _ rfl hinv
  rw [if_neg h9] at h
  by_cases h10 : t = "🩺 Симптом"
  · rw [if_pos h10, Option.some_inj] at h
    subst h
    exact ok_of_batch_eq db _ rfl hinv
  rw [if_neg h10] at h
  by_cases h11 : t = "🌡 Показатели"
  · rw [if_pos h11, Option.some_inj] at h
    subst h
    exact ok_of_batch_eq db _ rfl hinv
  rw [if_neg h11] at h
  by_cases h12 : t = "🌡 Температура"
  · rw [if_pos h12, Option.some_inj] at h
    subst h
    exact setUserState_ok _ o.timestamp db (Or.inl (by decide)) hinv
  rw [if_neg h12] at h
  by_cases h13 : t = "💓 Давление"
  · rw [if_pos h13, Option.some_inj] at h
    subst h
    exact setUserState_ok _ o.timestamp db (Or.inl (by decide)) hinv
  rw [if_neg h13] at h
  by_cases h14 : t = "❤️ Пульс"
  · rw [if_pos h14, Option.some_inj] at h
    subst h
    exact setUserState_ok _ o.timestamp db (Or.inl (by decide)) hinv
  rw [if_neg h14] at h
  by_cases h15 : t = "🫁 Сатурация"
  · rw [if_pos h15, Option.some_inj] at h
    subst h
    exact setUserState_ok _ o.timestamp db (Or.inl (by decide)) hinv
  rw [if_neg h15] at h
  by_cases h16 : t = "💊 Лекарства"
  · rw [if_pos h16, Option.some_inj] at h
    subst h
    exact ok_of_batch_eq db _ rfl hinv
  rw [if_neg h16] at h
  by_cases h17 : strStartsWith t "/med " = true
  · rw [if_pos h17, Option.some_inj] at h
    subst h
    exact ok_of_batch_eq db _ (medAdd_batch _ db) hinv
  rw [if_neg h17] at h
  exact absurd h (by simp)

theorem handleMessage_ok (o : Oracle) (allowed : Bool) (m : TgMessage)
    (db : DB) (hwf : Oracle.wf o) (hinv : BatchInv db) :
    BatchInv (handleMessage o allowed m db).1 ∧
    ((pRecs (handleMessage o allowed m db).1.batch).length >
        (pRecs db.batch).length → mCount db.batch = 1) := by
  unfold handleMessage
  split
  · exact ok_of_batch_eq db _ rfl hinv
  · split
    · rename_i r hr
      cases hmt : m.text with
      | none => rw [hmt] at hr; exact absurd hr (by simp)
      | some t => rw [hmt] at hr; exact handleTextCommand_ok o t db r hr hinv
    · split
      · rename_i st heq
        split
        · exact vitalInput_ok _ _ db hinv
        · split
          · exact symptomInput_ok _ db hinv
          · rename_i hv hsym
            rcases state_prefix_of_getUserState db st heq hinv.2.2 with hh | hh
            · exact absurd hh hv
            · exact absurd hh hsym
      · rename_i heq
        exact handleMedia_ok o m db hwf (nostate_of_getUserState_none db heq)
          hinv

theorem POST_ok (o : Oracle) (u : TgUpdate) (db : DB)
    (hwf : Oracle.wf o) (hinv : BatchInv db) :
    BatchInv (POST o u db).1 ∧
    ((pRecs (POST o u db).1.batch).length > (pRecs db.batch).length →
      mCount db.batch = 1) := by
  cases u with
  | callback d msg => exact handleCallbackQuery_ok o d msg db hinv
  | message allowed m => exact handleMessage_ok o allowed m db hwf hinv

theorem BatchInv_of_reachable (db : DB) (h : Reachable db) : BatchInv db := by
  induction h with
  | init =>
    refine ⟨by decide, by intro hc; exact absurd rfl hc, ?_⟩
    intro r hr
    exact absurd hr (List.not_mem_nil r)
  | step db o u h hwf ih => exact (POST_ok o u db hwf ih).1


/-! ## Webhook claim theorems -/

/-- Claim C3: in every reachable store state a conversation key holds at
most one active-session marker, and any webhook event that appends a page
record finds the marker already present (pages accumulate only while the
session is active). -/
theorem batch_single_active_session (db : DB) (h : Reachable db) :
    mCount db.batch ≤ 1 ∧
    ∀ o u, Oracle.wf o →
      (pRecs (POST o u db).1.batch).length > (pRecs db.batch).length →
      mCount db.batch = 1 := by
  have hinv := BatchInv_of_reachable db h
  exact ⟨hinv.1, fun o u hwf hgt => (POST_ok o u db hwf hinv).2 hgt⟩

/-- Witness for C3 at a concrete reachable session (marker plus two
pages) and a concrete page-appending photo event. -/
theorem batch_single_active_session_witness :
    mCount dbTwoPages.batch ≤ 1 ∧ mCount dbTwoPages.batch = 1 := by
  have hreach : Reachable dbTwoPages :=
    Reachable.step _ (oracleAt 3000 "https://blob/u2.jpg")
      (TgUpdate.message true photoMsg)
      (Reachable.step _ (oracleAt 2000 "https://blob/u1.jpg")
        (TgUpdate.message true photoMsg)
        (Reachable.step _ (oracleAt 1000 "https://blob/x")
          (TgUpdate.message true (textMsg "/batch"))
          Reachable.init ⟨by decide, rfl⟩) ⟨by decide, rfl⟩) ⟨by decide, rfl⟩
  have h := batch_single_active_session dbTwoPages hreach
  exact ⟨h.1, h.2 (oracleAt 4000 "https://blob/u3.jpg")
    (TgUpdate.message true photoMsg) ⟨by decide, rfl⟩ (by decide)⟩

/-- Claim C2 (counter-evidence): the resolver never reads `expiresAt`.
For every oracle — in particular at any current time — resolving the
expired-but-still-present decision of `dbExpired` (`expiresAt` = epoch 0)
creates a Document and reports success, while only an id that is absent
from the store produces the "time window elapsed" edit with no store
change. -/
theorem pendingResolution_ignores_expiry : ∀ o : Oracle,
    handleCallbackQuery o (some "add:p0") (some 5) dbExpired =
      ({ DB.empty with docs := [⟨"d1", payload0⟩], nextId := 2 },
       [Eff.answerCb, Eff.editAdded 5 "d1", Eff.readyMsg]) ∧
    handleCallbackQuery o (some "add:p0") (some 5) DB.empty =
      (DB.empty, [Eff.answerCb, Eff.editElapsed 5]) :=
  fun _ => ⟨rfl, rfl⟩

/-- Claim C8: when the duplicate detector finds no match, the Document
row and every Measurement row extracted from its key-values are committed
by the single nested create — on success both appear together, on failure
of that create neither does; no other outcome exists. -/
theorem intake_atomic (o : Oracle) (analysis : AnalysisResult)
    (fileUrl : String) (pageCount : Nat)
    (caption fileName fileType : Option String) (db : DB)
    (hnodup : findDuplicate (candidatePool db (analysis.date.getD o.timestamp))
      (candidateAnalysis analysis (analysis.date.getD o.timestamp)) = none) :
    (o.docCreateOk = true →
      (checkDuplicatesAndSave o analysis fileUrl pageCount caption fileName
          fileType db).1.docs =
        db.docs ++ [⟨"d" ++ toString db.nextId,
          buildDocData o analysis (analysis.date.getD o.timestamp) fileUrl
            pageCount caption fileName fileType⟩] ∧
      (checkDuplicatesAndSave o analysis fileUrl pageCount caption fileName
          fileType db).1.meas =
        db.meas ++ (extractMeasurements
            (buildDocData o analysis (analysis.date.getD o.timestamp) fileUrl
              pageCount caption fileName fileType).keyValues).map
          (fun m => ⟨"d" ++ toString db.nextId, m.name, m.value, m.unit,
            analysis.date.getD o.timestamp⟩)) ∧
    (o.docCreateOk = false →
      (checkDuplicatesAndSave o analysis fileUrl pageCount caption fileName
          fileType db).1.docs = db.docs ∧
      (checkDuplicatesAndSave o analysis fileUrl pageCount caption fileName
          fileType db).1.meas = db.meas) := by
  simp only [checkDuplicatesAndSave]
  rw [hnodup]
  cases h : o.docCreateOk <;> simp [h]

/-- Witness for C8 on an empty store with a successful oracle. -/
theorem intake_atomic_witness :
    (checkDuplicatesAndSave (oracleAt 4000 "https://blob/p") anFix
        "https://blob/p" 1 none none none DB.empty).1.docs =
      [⟨"d0", buildDocData (oracleAt 4000 "https://blob/p") anFix 5000000
        "https://blob/p" 1 none none none⟩] ∧
    (checkDuplicatesAndSave (oracleAt 4000 "https://blob/p") anFix
        "https://blob/p" 1 none none none DB.empty).1.meas = [] := by
  have h := (intake_atomic (oracleAt 4000 "https://blob/p") anFix
    "https://blob/p" 1 none none none DB.empty rfl).1 rfl
  exact ⟨h.1, h.2⟩

/-- Claim C9: resolving a decision with replace-existing while the
colliding Document still exists rewrites only that document's own columns
from the serialized payload (a null payload `keyValues` is passed as
`undefined` and leaves the old column), deletes the decision, and leaves
every Measurement row — and everything else — untouched. -/
theorem replace_touches_no_measurements (o : Oracle) (db : DB) (d : String)
    (mid : Int) (pid : String) (p : PendingRec) (dupId : String)
    (old : DocRow)
    (hne : ¬ d = "")
    (hsym : strStartsWith d "symptom:" = false)
    (haction : (splitOnChar ':' d).headD "" = "replace")
    (hpid : (splitOnChar ':' d).get? 1 = some pid)
    (hp : db.pendings.find? (fun q => q.id == pid) = some p)
    (hdup : p.duplicateId = some dupId)
    (hold : db.docs.find? (fun r => r.id == dupId) = some old) :
    (handleCallbackQuery o (some d) (some mid) db).1.meas = db.meas ∧
    (handleCallbackQuery o (some d) (some mid) db).1.docs =
      db.docs.map (fun row =>
        if row.id == dupId then ⟨row.id, replacedData p.documentData old.data⟩
        else row) ∧
    (handleCallbackQuery o (some d) (some mid) db).1.pendings =
      db.pendings.filter (fun q => !(q.id == pid)) ∧
    (handleCallbackQuery o (some d) (some mid) db).1.batch = db.batch ∧
    (handleCallbackQuery o (some d) (some mid) db).2 =
      [Eff.answerCb, Eff.editReplaced mid dupId, Eff.readyMsg] := by
  have hc : ¬ ((splitOnChar ':' d).headD "" = "cancel") := by
    rw [haction]; decide
  have ha : ¬ ((splitOnChar ':' d).headD "" = "add") := by
    rw [haction]; decide
  simp only [handleCallbackQuery, if_neg hne, hsym, Bool.false_eq_true,
    if_false, hpid, hp, hdup, hold, if_neg hc, if_neg ha, if_pos haction]
  exact ⟨trivial, trivial, trivial, trivial, trivial⟩

/-- Witness for C9 on a store with one measured document and a colliding
decision. -/
theorem replace_touches_no_measurements_witness :
    (handleCallbackQuery (oracleAt 4000 "https://blob/x") (some "replace:p0")
        (some 5) dbReplace).1.meas =
      [⟨"d0", "ПСА общий", ⟨4, 1⟩, "нг/мл", 5000000⟩] ∧
    (handleCallbackQuery (oracleAt 4000 "https://blob/x") (some "replace:p0")
        (some 5) dbReplace).1.pendings = [] := by
  have h := replace_touches_no_measurements (oracleAt 4000 "https://blob/x")
    dbReplace "replace:p0" 5 "p0" ⟨"p0", payload0, some "d0", 0, some 1⟩ "d0"
    ⟨"d0", { payload0 with
        title := "Старый"
        keyValues := some [("ПСА", "4")] }⟩
    (by decide) (by decide) (by decide) (by decide) rfl rfl rfl
  exact ⟨h.1, h.2.2.1⟩

/-- Claim C10 (counter-evidence): at the reachable store `dbMixed`, which
holds exactly one collected page plus an awaiting-input user-state row,
the state row is selected as a page — the progress message counts two
pages — and the fetch of its `__state__:` sentinel URL throws inside the
PDF-assembly loop before the analyzer is ever invoked.  So for every
oracle the finish clears the session, reports an error, forwards nothing
to the analyzer and creates no Document, instead of forwarding exactly
the one collected page. -/
theorem processBatch_sweeps_state_record :
    Reachable dbMixed ∧
    (∀ o : Oracle,
      processBatch o dbMixed =
        ({ dbMixed with batch := [] },
         [Eff.batchProcessing 2, Eff.genericError])) ∧
    (∀ o : Oracle, ∀ imgs : List (String × String),
      ¬ (Eff.analyzeMulti imgs ∈ (processBatch o dbMixed).2)) := by
  refine ⟨?_, fun o => rfl, fun o imgs hmem => ?_⟩
  · exact Reachable.step _ (oracleAt 3000 "https://blob/x")
      (TgUpdate.message true (textMsg "🌡 Температура"))
      (Reachable.step _ (oracleAt 2000 "https://blob/u1.jpg")
        (TgUpdate.message true photoMsg)
        (Reachable.step _ (oracleAt 1000 "https://blob/x")
          (TgUpdate.message true (textMsg "/batch"))
          Reachable.init ⟨by decide, rfl⟩) ⟨by decide, rfl⟩) ⟨by decide, rfl⟩
  · have he : (processBatch o dbMixed).2 =
        [Eff.batchProcessing 2, Eff.genericError] := rfl
    rw [he] at hmem
    simp at hmem

/-- Claim C10 as amended: provided no awaiting-input state row coexists
with the session (so no selected row carries a throwing `__state__:`
sentinel URL) and the external page-fetch/PDF/upload steps succeed,
finishing with N ≥ 1 pages clears the session and forwards exactly those
N pages, oldest first by receipt timestamp, as one multi-image
submission; finishing with the marker but zero pages clears the session,
reports nothing collected and creates no Document. -/
theorem processBatch_finish_spec (o : Oracle) (db : DB)
    (hstate : db.batch.filter isStateRec = [])
    (hok : o.batchOk = true) :
    (sortByReceivedAt (db.batch.filter (fun r => r.fileUrl != markerUrl)) ≠ [] →
      (processBatch o db).1.batch = [] ∧
      Eff.analyzeMulti
          ((sortByReceivedAt (db.batch.filter
              (fun r => r.fileUrl != markerUrl))).map
            (fun p => (p.fileUrl, p.fileType))) ∈ (processBatch o db).2) ∧
    (sortByReceivedAt (db.batch.filter (fun r => r.fileUrl != markerUrl)) = [] →
      (db.batch.find? isMarkerRec).isSome = true →
      (processBatch o db).1.batch = [] ∧
      Eff.nothingCollected ∈ (processBatch o db).2 ∧
      (processBatch o db).1.docs = db.docs) := by
  have hany := noStateRow_pages db hstate
  constructor
  · intro hne
    have hemp : ¬ ((sortByReceivedAt (db.batch.filter
        (fun r => r.fileUrl != markerUrl))).isEmpty = true) := by
      rw [List.isEmpty_iff]
      exact hne
    simp only [processBatch, if_neg hemp, hany, Bool.false_eq_true, if_false,
      hok, if_true]
    refine ⟨cds_batch _ _ _ _ _ _ _ _, ?_⟩
    simp
  · intro hemp hmark
    have hemp2 : (sortByReceivedAt (db.batch.filter
        (fun r => r.fileUrl != markerUrl))).isEmpty = true := by
      rw [List.isEmpty_iff]
      exact hemp
    simp only [processBatch, if_pos hemp2, hmark, if_true]
    exact ⟨trivial, by simp, trivial⟩

/-- Witness for the amended C10 on the two-page session. -/
theorem processBatch_finish_spec_witness :
    (processBatch (oracleAt 4000 "https://blob/pdf") dbTwoPages).1.batch = [] ∧
    Eff.analyzeMulti [("https://blob/u1.jpg", "image/jpeg"),
        ("https://blob/u2.jpg", "image/jpeg")] ∈
      (processBatch (oracleAt 4000 "https://blob/pdf") dbTwoPages).2 := by
  have h := (processBatch_finish_spec (oracleAt 4000 "https://blob/pdf")
    dbTwoPages rfl rfl).1 (by decide)
  exact h

end MedBot
